import Mathlib

/-!
Verification of lambda-eks-auth: a shallow embedding of `main.go`

The Go program is a single AWS Lambda handler.  Its own code is translated
function by function (`getLogger`, `newClientset`, `LambdaHandler`).  The
libraries it calls (AWS session and EKS client, the IAM authenticator token
generator, `encoding/base64`, `kubernetes.NewForConfig`) are not part of the
repository: they are collected in a `World` record of functions, and every call
to one of them is recorded, in program order, in a trace of `Effect`s.
A Go panic (nil dereference, `session.Must`) is the outcome `Outcome.fault`.
-/

namespace LambdaEksAuth

/-! ## Data model -/

/-- Go `[]byte`, each element below 256. -/
abbrev Bytes := List Nat

/-- Go `error` values that can flow through the handler. -/
inductive GoError where
  /-- Go `base64.CorruptInputError(offset)` -/
  | CorruptInputError (offset : Nat)
  /-- an error value produced by one of the other libraries -/
  | external (msg : String)
  deriving DecidableEq, Repr

/-- Go `type Event struct` (main.go, lines 20-25). -/
structure Event where
  KubernetesName : String
  Region : String
  LogLevel : String
  deriving DecidableEq, Repr

/-- Go `eks.Certificate`: the field read by the program. -/
structure Certificate where
  Data : Option String
  deriving DecidableEq, Repr

/-- Go `eks.Cluster`: the fields read by the program; every one is a Go pointer. -/
structure Cluster where
  Name : Option String
  Endpoint : Option String
  CertificateAuthority : Option Certificate
  deriving DecidableEq, Repr

/-- Go `eks.DescribeClusterOutput` (the SDK always allocates it; `Cluster` is a pointer). -/
structure DescribeClusterOutput where
  Cluster : Option Cluster
  deriving DecidableEq, Repr

/-- Go `eks.DescribeClusterInput`. -/
structure DescribeClusterInput where
  Name : Option String
  deriving DecidableEq, Repr

/-- Go `aws.Config`: the field set by the program. -/
structure AwsConfig where
  Region : Option String
  deriving DecidableEq, Repr

/-- Go `session.Session`: carries the configuration it was created from. -/
structure Session where
  Config : AwsConfig
  deriving DecidableEq, Repr

/-- Go `token.Generator` as built by `token.NewGenerator(forwardSessionName, cache)`. -/
structure Generator where
  forwardSessionName : Bool
  cache : Bool
  deriving DecidableEq, Repr

/-- Go `token.GetTokenOptions`: Go zero values for the fields the program leaves out. -/
structure GetTokenOptions where
  Region : String := ""
  ClusterID : String := ""
  AssumeRoleARN : String := ""
  AssumeRoleExternalID : String := ""
  SessionName : String := ""
  deriving DecidableEq, Repr

/-- Go `token.Token`; `Expiration` is kept as an abstract instant. -/
structure Token where
  Token : String
  Expiration : Nat
  deriving DecidableEq, Repr

/-- Go `rest.TLSClientConfig`, with Go zero values as defaults. -/
structure TLSClientConfig where
  Insecure : Bool := false
  ServerName : String := ""
  CertFile : String := ""
  KeyFile : String := ""
  CAFile : String := ""
  CertData : Bytes := []
  KeyData : Bytes := []
  CAData : Bytes := []
  deriving DecidableEq, Repr

/-- Go `rest.Config`: the endpoint, credential and trust fields, with Go zero values as
defaults (`AuthProvider` and `ExecProvider` are pointers, kept by name only). -/
structure RestConfig where
  Host : String := ""
  APIPath : String := ""
  Username : String := ""
  Password : String := ""
  BearerToken : String := ""
  BearerTokenFile : String := ""
  ImpersonateUserName : String := ""
  AuthProvider : Option String := none
  ExecProvider : Option String := none
  TLSClientConfig : TLSClientConfig := {}
  deriving DecidableEq, Repr

/-- Go `kubernetes.Clientset`: an opaque handle. -/
structure Clientset where
  handle : Nat
  deriving DecidableEq, Repr

/-- Go `zapcore.Level` values used by the program. -/
inductive Level where
  | Debug
  | Info
  | Warn
  | Error
  deriving DecidableEq, Repr

/-- Numeric order of zap levels (`DebugLevel = -1` is shifted to `0`). -/
def Level.rank : Level → Nat
  | .Debug => 0
  | .Info => 1
  | .Warn => 2
  | .Error => 3

/-- Go `*zap.SugaredLogger`: the level of the atomic level it was built with. -/
structure SugaredLogger where
  atom : Level
  deriving DecidableEq, Repr

/-! ## Effects and outcomes -/

/-- One observable action of the program: output, or a call into a library. -/
inductive Effect where
  /-- Go `fmt.Println(s)` -/
  | Println (s : String)
  /-- Go `log.Printf`, with the rendered text -/
  | LogPrintf (s : String)
  /-- a record written by the sugared logger (string arguments are rendered into
  the message, arguments that are not strings are left out) -/
  | Log (lvl : Level) (msg : String)
  /-- Go `session.NewSession(cfg)` -/
  | NewSession (cfg : AwsConfig)
  /-- Go `eks.New(sess).DescribeCluster(input)` -/
  | DescribeCluster (sess : Session) (input : DescribeClusterInput)
  /-- Go `token.NewGenerator(forwardSessionName, cache)` -/
  | NewGenerator (forwardSessionName cache : Bool)
  /-- Go `gen.GetWithOptions(opts)` -/
  | GetWithOptions (gen : Generator) (opts : GetTokenOptions)
  /-- Go `base64.StdEncoding.DecodeString(s)` -/
  | DecodeString (s : String)
  /-- Go `kubernetes.NewForConfig(cfg)` -/
  | NewForConfig (cfg : RestConfig)
  deriving DecidableEq, Repr

/-- How a Go function call ends: it returns, or it panics. -/
inductive Outcome (α : Type) where
  | ret (a : α)
  | fault (reason : String)
  deriving DecidableEq, Repr

/-- A run of Go code: the effects performed, in order, and how the run ended. -/
structure Run (α : Type) where
  trace : List Effect
  out : Outcome α
  deriving DecidableEq, Repr

/-- A run that returns at once. -/
def Run.pure {α : Type} (a : α) : Run α := ⟨[], .ret a⟩

/-- Sequencing: a panic stops the run, keeping the effects performed so far. -/
def Run.bind {α β : Type} (m : Run α) (f : α → Run β) : Run β :=
  match m.out with
  | .ret a => ⟨m.trace ++ (f a).trace, (f a).out⟩
  | .fault r => ⟨m.trace, .fault r⟩

instance : Monad Run where
  pure := Run.pure
  bind := Run.bind

/-- Perform one effect. -/
def emit (e : Effect) : Run Unit := ⟨[e], .ret ()⟩

/-- A Go runtime panic. -/
def goPanic {α : Type} (reason : String) : Run α := ⟨[], .fault reason⟩

/-- The libraries the program calls: each field gives the result of one call. -/
structure World where
  /-- Go `session.NewSession`: `none` when the session is created. -/
  NewSession : AwsConfig → Option GoError
  /-- Go `(*eks.EKS).DescribeCluster` on a client built from the session -/
  DescribeCluster : Session → DescribeClusterInput → Except GoError DescribeClusterOutput
  /-- Go `token.NewGenerator`: `none` when the generator is created. -/
  NewGenerator : Bool → Bool → Option GoError
  /-- Go `(token.Generator).GetWithOptions` -/
  GetWithOptions : Generator → GetTokenOptions → Except GoError Token
  /-- Go `base64.StdEncoding.DecodeString`: the bytes decoded and the error, if any -/
  DecodeString : String → Bytes × Option GoError
  /-- Go `kubernetes.NewForConfig` -/
  NewForConfig : RestConfig → Except GoError Clientset

/-! ## The program -/

/-- Go `aws.StringValue`: the string a pointer refers to, `""` for nil. -/
def StringValue (p : Option String) : String :=
  match p with
  | some s => s
  | none => ""

/-- Go `aws.String`: a pointer to the string. -/
def awsString (s : String) : Option String := some s

/-- A sugared-logger call at level `lvl`: written when the level of the logger allows it. -/
def SugaredLogger.log (sugar : SugaredLogger) (lvl : Level) (msg : String) : Run Unit :=
  if sugar.atom.rank ≤ lvl.rank then emit (.Log lvl msg) else Run.pure ()

/-- Go `getLogger` (main.go, lines 26-58).  `zap.NewAtomicLevel()` starts at `InfoLevel`. -/
def getLogger (loglevel : String) : Run SugaredLogger :=
  if loglevel = "info" then do
    emit (.Println "logLevel : info")
    return ⟨.Info⟩
  else if loglevel = "warn" then do
    emit (.Println "logLevel : warn")
    return ⟨.Warn⟩
  else if loglevel = "error" then do
    emit (.Println "logLevel : error")
    return ⟨.Error⟩
  else if loglevel = "debug" then do
    emit (.Println "logLevel : debug")
    return ⟨.Debug⟩
  else
    return ⟨.Info⟩

/-- Go `newClientset` (main.go, lines 60-91).  The Go result pair
`(*kubernetes.Clientset, error)` is kept as a pair of options. -/
def newClientset (w : World) (cluster : Option Cluster) (_sugar : SugaredLogger) :
    Run (Option Clientset × Option GoError) := do
  emit (.NewGenerator true false)
  match w.NewGenerator true false with
  | some err => return (none, some err)
  | none =>
    let gen : Generator := ⟨true, false⟩
    -- `cluster.Name` dereferences `cluster`
    match cluster with
    | none => goPanic "nil pointer dereference: cluster.Name"
    | some c =>
      let opts : GetTokenOptions := { ClusterID := StringValue c.Name }
      emit (.GetWithOptions gen opts)
      match w.GetWithOptions gen opts with
      | .error err => return (none, some err)
      | .ok tok =>
        -- `cluster.CertificateAuthority.Data` dereferences `cluster.CertificateAuthority`
        match c.CertificateAuthority with
        | none => goPanic "nil pointer dereference: cluster.CertificateAuthority.Data"
        | some cert =>
          emit (.DecodeString (StringValue cert.Data))
          match w.DecodeString (StringValue cert.Data) with
          | (_, some err) => return (none, some err)
          | (ca, none) =>
            let cfg : RestConfig :=
              { Host := StringValue c.Endpoint
                BearerToken := tok.Token
                TLSClientConfig := { CAData := ca } }
            emit (.NewForConfig cfg)
            match w.NewForConfig cfg with
            | .error err => return (none, some err)
            | .ok clientset => return (some clientset, none)

/-- Go `LambdaHandler` (main.go, lines 93-141). -/
def LambdaHandler (w : World) (e : Event) : Run (String × Option GoError) := do
  let sugar ← getLogger e.LogLevel
  emit (.LogPrintf "*main.Event")
  if e.KubernetesName = "" then
    sugar.log .Error "Empty Cluster name in event"
    return ("empty Kubernetes Name", none)
  else
    let mut e := e
    if e.LogLevel = "" then
      sugar.log .Warn "No Log Level Set.Using default info"
      e := { e with LogLevel := "info" }
    if e.Region = "" then
      sugar.log .Warn "No Region Set.Using default eu-west-1"
      e := { e with Region := "eu-west-1" }
    sugar.log .Info ("Region :" ++ e.Region)
    sugar.log .Info ("LogLevel : " ++ e.LogLevel)
    sugar.log .Info ("EKS Cluster Name : " ++ e.KubernetesName)
    sugar.log .Debug ("Getting Session for region" ++ e.Region)
    let cfg : AwsConfig := { Region := awsString e.Region }
    emit (.NewSession cfg)
    -- `session.Must` panics on an error
    match w.NewSession cfg with
    | some _ => goPanic "session.Must: NewSession failed"
    | none =>
      let sess : Session := ⟨cfg⟩
      sugar.log .Info ("Getting Cluster Details for :" ++ e.KubernetesName)
      let input : DescribeClusterInput := { Name := awsString e.KubernetesName }
      emit (.DescribeCluster sess input)
      match w.DescribeCluster sess input with
      | .error err => return ("Error Describing Clusters", some err)
      | .ok result =>
        sugar.log .Debug "Describing Cluster %+v"
        let (clientset, err) ← newClientset w result.Cluster sugar
        match err with
        | some err => return ("Error creating clientset", some err)
        | none =>
          let _ := clientset
          sugar.log .Debug "Client Set :"
          return ("Success", err)

/-! ## Reading a trace -/

/-- Library calls, as opposed to output written by the program. -/
def Effect.isCall : Effect → Bool
  | .Println _ => false
  | .LogPrintf _ => false
  | .Log _ _ => false
  | _ => true

/-- The library calls of a trace, in order. -/
def calls (t : List Effect) : List Effect := t.filter Effect.isCall

/-- Whether the call recorded by an effect returned without error in world `w`. -/
def World.succeeded (w : World) : Effect → Bool
  | .NewSession cfg => (w.NewSession cfg).isNone
  | .DescribeCluster sess input => (w.DescribeCluster sess input).toBool
  | .NewGenerator f c => (w.NewGenerator f c).isNone
  | .GetWithOptions gen opts => (w.GetWithOptions gen opts).toBool
  | .DecodeString s => (w.DecodeString s).2.isNone
  | .NewForConfig cfg => (w.NewForConfig cfg).toBool
  | _ => true

/-- The steps of the handler that call a library. -/
inductive Step where
  /-- Go `session.NewSession` -/
  | Session
  /-- Go `DescribeCluster` (Resolve) -/
  | Describe
  /-- Go `token.NewGenerator` (Sign) -/
  | Generator
  /-- Go `gen.GetWithOptions` (Sign) -/
  | Sign
  /-- Go `base64.StdEncoding.DecodeString` of the CA data -/
  | DecodeCA
  /-- Go `kubernetes.NewForConfig` (Assemble) -/
  | Assemble
  deriving DecidableEq, Repr

/-- The step a library call belongs to. -/
def Effect.step : Effect → Option Step
  | .NewSession _ => some .Session
  | .DescribeCluster _ _ => some .Describe
  | .NewGenerator _ _ => some .Generator
  | .GetWithOptions _ _ => some .Sign
  | .DecodeString _ => some .DecodeCA
  | .NewForConfig _ => some .Assemble
  | _ => none

/-- The steps of a trace, in order. -/
def steps (t : List Effect) : List Step := t.filterMap Effect.step

/-- The order in which `LambdaHandler` and `newClientset` reach the libraries. -/
def Step.order : List Step :=
  [.Session, .Describe, .Generator, .Sign, .DecodeCA, .Assemble]

/-- The logger `getLogger` returns for a level name. -/
def loggerFor (loglevel : String) : SugaredLogger :=
  if loglevel = "info" then ⟨.Info⟩
  else if loglevel = "warn" then ⟨.Warn⟩
  else if loglevel = "error" then ⟨.Error⟩
  else if loglevel = "debug" then ⟨.Debug⟩
  else ⟨.Info⟩

/-- The region the handler works with once the default is applied (lines 107-110). -/
def regionOf (e : Event) : String := if e.Region = "" then "eu-west-1" else e.Region

/-! ## A concrete base64 decoder

`base64.StdEncoding.DecodeString` of the Go standard library, used to build
concrete worlds.  The general theorems do not depend on it: they hold for
whatever `World.DecodeString` answers. -/

/-- The bytes of a Go string (UTF-8). -/
def goBytes (s : String) : Bytes :=
  s.data.flatMap fun c => (String.utf8EncodeChar c).map UInt8.toNat

/-- Go `decodeMap` of `StdEncoding`: the 6-bit value of an alphabet byte, `0xff` otherwise. -/
def decodeMap (b : Nat) : Nat :=
  if 65 ≤ b ∧ b ≤ 90 then b - 65
  else if 97 ≤ b ∧ b ≤ 122 then b - 97 + 26
  else if 48 ≤ b ∧ b ≤ 57 then b - 48 + 52
  else if b = 43 then 62
  else if b = 47 then 63
  else 255

/-- The loop `for si < len(src) && (src[si] == 10 || src[si] == 13)` that skips newlines:
the input left and its index. -/
def skipNewlines : Bytes → Nat → Bytes × Nat
  | [], si => ([], si)
  | b :: rest, si =>
    if b = 10 ∨ b = 13 then skipNewlines rest (si + 1) else (b :: rest, si)

/-- How the `for j` loop of `decodeQuantum` is left. -/
inductive Scan where
  /-- a `return si, 0, err` inside the loop -/
  | returned (si : Nat) (err : Option GoError)
  /-- the loop ended with `dlen` sextets in `dbuf`; `rest` is the input from `si` on -/
  | filled (rest : Bytes) (si : Nat) (dbuf : List Nat) (dlen : Nat) (err : Option GoError)
  deriving DecidableEq, Repr

/-- The `for j` loop of `decodeQuantum`, for `StdEncoding` (padding `=`, not strict).
The input is read front to back: the first argument is `src[si:]`, so that
`len(src) == si` is the case of the empty list. -/
def scanQuantum : Bytes → Nat → Nat → List Nat → Scan
  | [], j, si, dbuf =>
    if 4 ≤ j then .filled [] si dbuf 4 none
    else if j = 0 then .returned si none
    else .returned si (some (.CorruptInputError (si - j)))
  | b :: rest, j, si, dbuf =>
    if 4 ≤ j then .filled (b :: rest) si dbuf 4 none
    else
      let si := si + 1
      let out := decodeMap b
      if out ≠ 255 then scanQuantum rest (j + 1) si (dbuf ++ [out])
      else if b = 10 ∨ b = 13 then scanQuantum rest j si dbuf
      else if b ≠ 61 then .returned si (some (.CorruptInputError (si - 1)))
      else if j = 0 ∨ j = 1 then .returned si (some (.CorruptInputError (si - 1)))
      else
        let finish (rest : Bytes) (si : Nat) : Scan :=
          match skipNewlines rest si with
          | ([], si) => .filled [] si dbuf j none
          | (b :: rest, si) => .filled (b :: rest) si dbuf j (some (.CorruptInputError si))
        if j = 2 then
          match skipNewlines rest si with
          | ([], si) => .returned si (some (.CorruptInputError si))
          | (b :: rest, si) =>
            if b ≠ 61 then .returned si (some (.CorruptInputError (si - 1)))
            else finish rest (si + 1)
        else finish rest si

/-- Go `decodeQuantum` on `src[si:]`: the input left, the new index, the bytes written
and the error. -/
def decodeQuantum (src : Bytes) (si : Nat) : Bytes × Nat × Bytes × Option GoError :=
  match scanQuantum src 0 si [] with
  | .returned si err => ([], si, [], err)
  | .filled rest si dbuf dlen err =>
    let val := dbuf.getD 0 0 * 2 ^ 18 + dbuf.getD 1 0 * 2 ^ 12 + dbuf.getD 2 0 * 2 ^ 6 + dbuf.getD 3 0
    let out := [val / 2 ^ 16 % 256, val / 2 ^ 8 % 256, val % 256]
    (rest, si, out.take (dlen - 1), err)

/-- The loop of `Decode`: quantum after quantum until the input is used up or an error. -/
def decodeLoop : Nat → Bytes → Nat → Bytes → Bytes × Option GoError
  | 0, _, _, dst => (dst, none)
  | _ + 1, [], _, dst => (dst, none)
  | fuel + 1, b :: src, si, dst =>
    match decodeQuantum (b :: src) si with
    | (_, _, out, some err) => (dst ++ out, some err)
    | (rest, si, out, none) => decodeLoop fuel rest si (dst ++ out)

/-- Go `base64.StdEncoding.DecodeString`. -/
def stdDecodeString (s : String) : Bytes × Option GoError :=
  decodeLoop ((goBytes s).length + 1) (goBytes s) 0 []

/-! ## Concrete worlds -/

/-- A self-signed CA certificate (ECDSA P-256, `CN=kubernetes`) in PEM form. -/
def caPEM : String :=
  "-----BEGIN CERTIFICATE-----\nMIIBgDCCASWgAwIBAgIUTT5P1ZJAUVmDFXKV/icj4IrQMHMwCgYIKoZIzj0EAwIw\nFTETMBEGA1UEAwwKa3ViZXJuZXRlczAeFw0yNjExMDQxNDExMjhaFw0zNjExMDEx\nNDExMjhaMBUxEzARBgNVBAMMCmt1YmVybmV0ZXMwWTATBgcqhkjOPQIBBggqhkjO\nPQMBBwNCAATSaYWMnXpQlRZcOBNyst+gv2O0t55Mmv/N715Lg+MCulVlmiM53nl0\n5rtIVnBVvjf8rDbupo91okc9qlvKXYrKo1MwUTAdBgNVHQ4EFgQU7eTJ6RlJ3xOR\nki0UI9JVFKZ3DgkwHwYDVR0jBBgwFoAU7eTJ6RlJ3xORki0UI9JVFKZ3DgkwDwYD\nVR0TAQH/BAUwAwEB/zAKBggqhkjOPQQDAgNJADBGAiEA/t5/8UVQCCEmShoETZJ7\nL2zFQFfIQGPKQWycGVVhANACIQCEgbwJ9mVCB6FUIbDqC0/bBWhzMKUuRxEr/4QR\nsn8ptg==\n-----END CERTIFICATE-----\n"

/-- The certificate-authority data of a cluster as the control plane returns it: the
standard base64 encoding of `caPEM`. -/
def caData : String :=
  "LS0tLS1CRUdJTiBDRVJUSUZJQ0FURS0tLS0tCk1JSUJnRENDQVNXZ0F3SUJBZ0lVVFQ1UDFaSkFVVm1ERlhLVi9pY2o0SXJRTUhNd0NnWUlLb1pJemowRUF3SXcKRlRFVE1CRUdBMVVFQXd3S2EzVmlaWEp1WlhSbGN6QWVGdzB5TmpFeE1EUXhOREV4TWpoYUZ3MHpOakV4TURFeApOREV4TWpoYU1CVXhFekFSQmdOVkJBTU1DbXQxWW1WeWJtVjBaWE13V1RBVEJnY3Foa2pPUFFJQkJnZ3Foa2pPClBRTUJCd05DQUFUU2FZV01uWHBRbFJaY09CTnlzdCtndjJPMHQ1NU1tdi9ONzE1TGcrTUN1bFZsbWlNNTNubDAKNXJ0SVZuQlZ2amY4ckRidXBvOTFva2M5cWx2S1hZcktvMU13VVRBZEJnTlZIUTRFRmdRVTdlVEo2UmxKM3hPUgpraTBVSTlKVkZLWjNEZ2t3SHdZRFZSMGpCQmd3Rm9BVTdlVEo2UmxKM3hPUmtpMFVJOUpWRktaM0Rna3dEd1lEClZSMFRBUUgvQkFVd0F3RUIvekFLQmdncWhrak9QUVFEQWdOSkFEQkdBaUVBL3Q1LzhVVlFDQ0VtU2hvRVRaSjcKTDJ6RlFGZklRR1BLUVd5Y0dWVmhBTkFDSVFDRWdid0o5bVZDQjZGVUliRHFDMC9iQldoek1LVXVSeEVyLzRRUgpzbjhwdGc9PQotLS0tLUVORCBDRVJUSUZJQ0FURS0tLS0tCg=="

/-- A world in which the control plane answers with the cluster asked for, at
`https://x.eks.amazonaws.com`, with the CA `caData`.  The token generator refuses an
empty ClusterID ("ClusterID is required") and otherwise returns a token; the client
constructor accepts a configuration without CA data (system roots) or with the PEM
certificate `caPEM`, and refuses CA data that is not a PEM certificate. -/
def stubWorld : World where
  NewSession := fun _ => none
  DescribeCluster := fun _ input =>
    .ok ⟨some ⟨input.Name, some "https://x.eks.amazonaws.com", some ⟨some caData⟩⟩⟩
  NewGenerator := fun _ _ => none
  GetWithOptions := fun _ opts =>
    if opts.ClusterID = "" then .error (.external "ClusterID is required")
    else .ok ⟨"k8s-aws-v1." ++ opts.ClusterID, 900⟩
  DecodeString := stdDecodeString
  NewForConfig := fun cfg =>
    if cfg.TLSClientConfig.CAData = [] ∨ cfg.TLSClientConfig.CAData = goBytes caPEM then
      .ok ⟨1⟩
    else
      .error (.external "unable to load root certificates: unable to parse bytes as PEM block")

/-- The event of the end-to-end scenario. -/
def prodEvent : Event := ⟨"prod-cluster", "", "debug"⟩

/-- The control plane reports that there is no such cluster. -/
def notFoundWorld : World :=
  { stubWorld with
    DescribeCluster := fun _ _ => .error (.external "ResourceNotFoundException") }

/-- The control plane answers with CA data that is not base64. -/
def badCAWorld : World :=
  { stubWorld with
    DescribeCluster := fun _ input =>
      .ok ⟨some ⟨input.Name, some "https://x.eks.amazonaws.com", some ⟨some "not base64"⟩⟩⟩ }

/-- CA data that is not base64, and no credentials to sign with. -/
def badCANoCredentialsWorld : World :=
  { badCAWorld with
    GetWithOptions := fun _ _ => .error (.external "NoCredentialProviders") }

/-- The control plane answers with a cluster of another name. -/
def otherNameWorld : World :=
  { stubWorld with
    DescribeCluster := fun _ _ =>
      .ok ⟨some ⟨some "other-cluster", some "https://y.eks.amazonaws.com", some ⟨some caData⟩⟩⟩ }

/-- The control plane answers with a cluster that carries no name. -/
def noNameWorld : World :=
  { stubWorld with
    DescribeCluster := fun _ _ =>
      .ok ⟨some ⟨none, some "https://x.eks.amazonaws.com", some ⟨some caData⟩⟩⟩ }

/-- A cluster descriptor without certificate authority. -/
def noCACluster : Cluster := ⟨some "prod-cluster", some "https://x.eks.amazonaws.com", none⟩

/-- The control plane answers with a cluster without certificate authority. -/
def noCAWorld : World :=
  { stubWorld with DescribeCluster := fun _ _ => .ok ⟨some noCACluster⟩ }

/-! ## Facts about runs -/

theorem calls_append (a b : List Effect) : calls (a ++ b) = calls a ++ calls b := by
  simp [calls]

theorem calls_nil : calls [] = [] := rfl

theorem calls_cons (x : Effect) (t : List Effect) :
    calls (x :: t) = if x.isCall then x :: calls t else calls t := by
  simp [calls, List.filter_cons]

theorem log_out (sugar : SugaredLogger) (lvl : Level) (msg : String) :
    (sugar.log lvl msg).out = .ret () := by
  unfold SugaredLogger.log; split <;> rfl

theorem log_calls (sugar : SugaredLogger) (lvl : Level) (msg : String) :
    calls (sugar.log lvl msg).trace = [] := by
  unfold SugaredLogger.log; split <;> rfl

theorem bind_log {β : Type} (sugar : SugaredLogger) (lvl : Level) (msg : String) (f : Unit → Run β) :
    (sugar.log lvl msg >>= f) = ⟨(sugar.log lvl msg).trace ++ (f ()).trace, (f ()).out⟩ := by
  show Run.bind _ _ = _
  unfold Run.bind; rw [log_out]

theorem bind_emit {β : Type} (x : Effect) (f : Unit → Run β) :
    (emit x >>= f) = ⟨x :: (f ()).trace, (f ()).out⟩ := rfl

theorem bind_pure {α β : Type} (a : α) (f : α → Run β) :
    ((pure a : Run α) >>= f) = f a := rfl

theorem pure_out {α : Type} (a : α) : (pure a : Run α).out = .ret a := rfl

theorem pure_trace {α : Type} (a : α) : (pure a : Run α).trace = [] := rfl

theorem getLogger_out (l : String) : (getLogger l).out = .ret (loggerFor l) := by
  unfold getLogger loggerFor
  split_ifs <;> rfl

theorem getLogger_calls (l : String) : calls (getLogger l).trace = [] := by
  unfold getLogger
  split_ifs <;> rfl

theorem bind_getLogger {β : Type} (l : String) (f : SugaredLogger → Run β) :
    (getLogger l >>= f) =
      ⟨(getLogger l).trace ++ (f (loggerFor l)).trace, (f (loggerFor l)).out⟩ := by
  show Run.bind _ _ = _
  unfold Run.bind; rw [getLogger_out]

theorem bind_out {α β : Type} (m : Run α) (f : α → Run β) :
    (m >>= f).out = match m.out with
      | .ret a => (f a).out
      | .fault r => .fault r := by
  show (Run.bind _ _).out = _
  unfold Run.bind; split <;> simp_all

theorem bind_trace {α β : Type} (m : Run α) (f : α → Run β) :
    (m >>= f).trace = match m.out with
      | .ret a => m.trace ++ (f a).trace
      | .fault _ => m.trace := by
  show (Run.bind _ _).trace = _
  unfold Run.bind; split <;> simp_all

theorem handler_out (w : World) (e : Event) (h : e.KubernetesName ≠ "") :
    (LambdaHandler w e).out =
      match w.NewSession ⟨some (regionOf e)⟩ with
      | some _ => .fault "session.Must: NewSession failed"
      | none =>
        match w.DescribeCluster ⟨⟨some (regionOf e)⟩⟩ ⟨some e.KubernetesName⟩ with
        | .error err => .ret ("Error Describing Clusters", some err)
        | .ok result =>
          match (newClientset w result.Cluster (loggerFor e.LogLevel)).out with
          | .fault r => .fault r
          | .ret p =>
            match p.2 with
            | some err => .ret ("Error creating clientset", some err)
            | none => .ret ("Success", none) := by
  unfold LambdaHandler regionOf
  simp only [bind_log, bind_getLogger, bind_emit, bind_pure, h, if_false, awsString, goPanic, pure_out, bind_out]
  split_ifs <;> (repeat' split) <;> simp_all [pure_out]

theorem handler_calls (w : World) (e : Event) (h : e.KubernetesName ≠ "") :
    calls (LambdaHandler w e).trace =
      .NewSession ⟨some (regionOf e)⟩ ::
      match w.NewSession ⟨some (regionOf e)⟩ with
      | some _ => []
      | none =>
        .DescribeCluster ⟨⟨some (regionOf e)⟩⟩ ⟨some e.KubernetesName⟩ ::
        match w.DescribeCluster ⟨⟨some (regionOf e)⟩⟩ ⟨some e.KubernetesName⟩ with
        | .error _ => []
        | .ok result => calls (newClientset w result.Cluster (loggerFor e.LogLevel)).trace := by
  unfold LambdaHandler regionOf
  simp only [bind_log, bind_getLogger, bind_emit, bind_pure, h, if_false, awsString, goPanic, pure_out, bind_out, bind_trace, pure_trace, calls_append, log_calls, getLogger_calls]
  split_ifs <;> (repeat' split) <;> simp_all [pure_out, pure_trace, calls_cons, calls_nil, calls_append, log_calls, getLogger_calls, Effect.isCall]

theorem mem_calls (x : Effect) (t : List Effect) : x ∈ calls t ↔ x ∈ t ∧ x.isCall = true := by
  simp [calls]

theorem handler_empty (w : World) (e : Event) (h : e.KubernetesName = "") :
    (LambdaHandler w e).out = .ret ("empty Kubernetes Name", none) ∧
      calls (LambdaHandler w e).trace = [] := by
  unfold LambdaHandler
  simp only [bind_log, bind_getLogger, bind_emit, bind_pure, h, if_true, pure_out, pure_trace,
    calls_append, calls_cons, calls_nil, log_calls, getLogger_calls, Effect.isCall]
  simp

/-- What `newClientset` does, case by case. -/
theorem newClientset_eq (w : World) (cluster : Option Cluster) (s : SugaredLogger) :
    newClientset w cluster s =
      match w.NewGenerator true false with
      | some err => ⟨[.NewGenerator true false], .ret (none, some err)⟩
      | none =>
        match cluster with
        | none => ⟨[.NewGenerator true false], .fault "nil pointer dereference: cluster.Name"⟩
        | some c =>
          match w.GetWithOptions ⟨true, false⟩ { ClusterID := StringValue c.Name } with
          | .error err =>
            ⟨[.NewGenerator true false,
              .GetWithOptions ⟨true, false⟩ { ClusterID := StringValue c.Name }],
              .ret (none, some err)⟩
          | .ok tok =>
            match c.CertificateAuthority with
            | none =>
              ⟨[.NewGenerator true false,
                .GetWithOptions ⟨true, false⟩ { ClusterID := StringValue c.Name }],
                .fault "nil pointer dereference: cluster.CertificateAuthority.Data"⟩
            | some cert =>
              match (w.DecodeString (StringValue cert.Data)).2 with
              | some err =>
                ⟨[.NewGenerator true false,
                  .GetWithOptions ⟨true, false⟩ { ClusterID := StringValue c.Name },
                  .DecodeString (StringValue cert.Data)],
                  .ret (none, some err)⟩
              | none =>
                match w.NewForConfig
                    { Host := StringValue c.Endpoint
                      BearerToken := tok.Token
                      TLSClientConfig :=
                        { CAData := (w.DecodeString (StringValue cert.Data)).1 } } with
                | .error err =>
                  ⟨[.NewGenerator true false,
                    .GetWithOptions ⟨true, false⟩ { ClusterID := StringValue c.Name },
                    .DecodeString (StringValue cert.Data),
                    .NewForConfig
                      { Host := StringValue c.Endpoint
                        BearerToken := tok.Token
                        TLSClientConfig :=
                          { CAData := (w.DecodeString (StringValue cert.Data)).1 } }],
                    .ret (none, some err)⟩
                | .ok cs =>
                  ⟨[.NewGenerator true false,
                    .GetWithOptions ⟨true, false⟩ { ClusterID := StringValue c.Name },
                    .DecodeString (StringValue cert.Data),
                    .NewForConfig
                      { Host := StringValue c.Endpoint
                        BearerToken := tok.Token
                        TLSClientConfig :=
                          { CAData := (w.DecodeString (StringValue cert.Data)).1 } }],
                    .ret (some cs, none)⟩ := by
  unfold newClientset
  simp only [bind_emit, bind_pure, goPanic]
  repeat' split
  all_goals simp_all [pure_out, pure_trace, pure, Run.pure]

theorem newClientset_calls (w : World) (cluster : Option Cluster) (s : SugaredLogger) :
    calls (newClientset w cluster s).trace = (newClientset w cluster s).trace := by
  rw [newClientset_eq]
  repeat' split
  all_goals rfl

/-- Every effect of `newClientset` is one of its four library calls, made only after
the calls before it succeeded. -/
theorem newClientset_mem (w : World) (cluster : Option Cluster) (s : SugaredLogger)
    (x : Effect) (h : x ∈ (newClientset w cluster s).trace) :
    x = .NewGenerator true false ∨
    ∃ c, cluster = some c ∧ w.NewGenerator true false = none ∧
      (x = .GetWithOptions ⟨true, false⟩ { ClusterID := StringValue c.Name } ∨
       ∃ tok cert,
        w.GetWithOptions ⟨true, false⟩ { ClusterID := StringValue c.Name } = .ok tok ∧
        c.CertificateAuthority = some cert ∧
        (x = .DecodeString (StringValue cert.Data) ∨
         ((w.DecodeString (StringValue cert.Data)).2 = none ∧
          x = .NewForConfig
            { Host := StringValue c.Endpoint
              BearerToken := tok.Token
              TLSClientConfig :=
                { CAData := (w.DecodeString (StringValue cert.Data)).1 } }))) := by
  rw [newClientset_eq] at h
  revert h
  repeat' split
  all_goals simp_all

/-- Every library call of `LambdaHandler` is the session creation, the describe call made
once the session exists, or a call of `newClientset` on the cluster described. -/
theorem handler_mem (w : World) (e : Event) (x : Effect)
    (h : x ∈ (LambdaHandler w e).trace) (hx : x.isCall = true) :
    e.KubernetesName ≠ "" ∧
    (x = .NewSession ⟨some (regionOf e)⟩ ∨
     (w.NewSession ⟨some (regionOf e)⟩ = none ∧
      (x = .DescribeCluster ⟨⟨some (regionOf e)⟩⟩ ⟨some e.KubernetesName⟩ ∨
       ∃ result,
        w.DescribeCluster ⟨⟨some (regionOf e)⟩⟩ ⟨some e.KubernetesName⟩ = .ok result ∧
        x ∈ (newClientset w result.Cluster (loggerFor e.LogLevel)).trace))) := by
  have hc : x ∈ calls (LambdaHandler w e).trace := (mem_calls _ _).2 ⟨h, hx⟩
  by_cases hn : e.KubernetesName = ""
  · rw [(handler_empty w e hn).2] at hc
    simp at hc
  · refine ⟨hn, ?_⟩
    rw [handler_calls w e hn] at hc
    cases hS : w.NewSession ⟨some (regionOf e)⟩ with
    | some err =>
      simp only [hS, List.mem_singleton] at hc
      exact Or.inl hc
    | none =>
      cases hD : w.DescribeCluster ⟨⟨some (regionOf e)⟩⟩ ⟨some e.KubernetesName⟩ with
      | error err =>
        simp only [hS, hD, List.mem_cons, List.mem_singleton, List.not_mem_nil, or_false] at hc
        rcases hc with h | h
        · exact Or.inl h
        · exact Or.inr ⟨rfl, Or.inl h⟩
      | ok result =>
        simp only [hS, hD, newClientset_calls, List.mem_cons] at hc
        rcases hc with h | h | h
        · exact Or.inl h
        · exact Or.inr ⟨rfl, Or.inl h⟩
        · exact Or.inr ⟨rfl, Or.inr ⟨result, rfl, h⟩⟩

theorem mem_of_mem_calls (x : Effect) (t : List Effect) (h : x ∈ calls t) : x ∈ t :=
  ((mem_calls x t).1 h).1

/-- A describe call in the trace is the one made on the session of the defaulted region. -/
theorem describe_mem (w : World) (e : Event) (sess : Session) (input : DescribeClusterInput)
    (h : Effect.DescribeCluster sess input ∈ (LambdaHandler w e).trace) :
    e.KubernetesName ≠ "" ∧ w.NewSession ⟨some (regionOf e)⟩ = none ∧
      sess = ⟨⟨some (regionOf e)⟩⟩ ∧ input = ⟨some e.KubernetesName⟩ := by
  obtain ⟨hn, h1⟩ := handler_mem w e _ h rfl
  refine ⟨hn, ?_⟩
  rcases h1 with h1 | ⟨hS, h1 | ⟨result, _, h1⟩⟩
  · cases h1
  · injection h1 with h2 h3
    exact ⟨hS, h2, h3⟩
  · have := newClientset_mem w _ _ _ h1
    simp at this

/-- A call of the signing, decoding or assembly step in the trace is a call made by
`newClientset` on the cluster that the describe call returned. -/
theorem later_mem (w : World) (e : Event) (x : Effect)
    (h : x ∈ (LambdaHandler w e).trace)
    (hx : x.step = some .Generator ∨ x.step = some .Sign ∨ x.step = some .DecodeCA ∨
      x.step = some .Assemble) :
    e.KubernetesName ≠ "" ∧ w.NewSession ⟨some (regionOf e)⟩ = none ∧
      ∃ result,
        w.DescribeCluster ⟨⟨some (regionOf e)⟩⟩ ⟨some e.KubernetesName⟩ = .ok result ∧
        x ∈ (newClientset w result.Cluster (loggerFor e.LogLevel)).trace := by
  have hcall : x.isCall = true := by
    cases x <;> simp [Effect.step] at hx <;> rfl
  obtain ⟨hn, h1⟩ := handler_mem w e _ h hcall
  refine ⟨hn, ?_⟩
  rcases h1 with h1 | ⟨hS, h1 | h1⟩
  · subst h1; simp [Effect.step] at hx
  · subst h1; simp [Effect.step] at hx
  · exact ⟨hS, h1⟩

/-- Once the describe call has returned, the calls of `newClientset` are in the trace. -/
theorem handler_sub (w : World) (e : Event) (result : DescribeClusterOutput)
    (hn : e.KubernetesName ≠ "") (hS : w.NewSession ⟨some (regionOf e)⟩ = none)
    (hD : w.DescribeCluster ⟨⟨some (regionOf e)⟩⟩ ⟨some e.KubernetesName⟩ = .ok result)
    (x : Effect) (h : x ∈ (newClientset w result.Cluster (loggerFor e.LogLevel)).trace) :
    x ∈ (LambdaHandler w e).trace := by
  apply mem_of_mem_calls
  rw [handler_calls w e hn]
  simp only [hS, hD, newClientset_calls, List.mem_cons]
  exact Or.inr (Or.inr h)

theorem steps_calls (t : List Effect) : steps (calls t) = steps t := by
  induction t with
  | nil => rfl
  | cons x t ih =>
    cases x <;> simp_all [steps, calls, List.filter_cons, Effect.isCall, Effect.step, List.filterMap_cons]

set_option maxRecDepth 1000000 in
set_option maxHeartbeats 4000000 in
/-- The CA data of the stub world decodes, without error, to the PEM certificate. -/
theorem caData_decodes : stdDecodeString caData = (goBytes caPEM, none) := by
  decide

/-- Progress of `newClientset`: each library call is made as soon as the calls before it
have succeeded (and the pointer it reads is not nil). -/
theorem newClientset_progress (w : World) (cluster : Option Cluster) (s : SugaredLogger) :
    Effect.NewGenerator true false ∈ (newClientset w cluster s).trace ∧
    ∀ c, cluster = some c → w.NewGenerator true false = none →
      Effect.GetWithOptions ⟨true, false⟩ { ClusterID := StringValue c.Name } ∈
        (newClientset w cluster s).trace ∧
      ∀ tok cert,
        w.GetWithOptions ⟨true, false⟩ { ClusterID := StringValue c.Name } = .ok tok →
        c.CertificateAuthority = some cert →
        Effect.DecodeString (StringValue cert.Data) ∈ (newClientset w cluster s).trace ∧
        ((w.DecodeString (StringValue cert.Data)).2 = none →
          Effect.NewForConfig
            { Host := StringValue c.Endpoint
              BearerToken := tok.Token
              TLSClientConfig :=
                { CAData := (w.DecodeString (StringValue cert.Data)).1 } } ∈
            (newClientset w cluster s).trace) := by
  rw [newClientset_eq]
  constructor
  · repeat' split
    all_goals simp
  · intro c hc hG
    subst hc
    simp only [hG]
    constructor
    · repeat' split
      all_goals simp
    · intro tok cert hT hca
      simp only [hT, hca]
      constructor
      · repeat' split
        all_goals simp
      · intro hdec
        simp only [hdec]
        split <;> simp

/-- Progress of `LambdaHandler`: with a non-empty name, each library call is made as soon
as the calls before it have succeeded. -/
theorem handler_progress (w : World) (e : Event) (hn : e.KubernetesName ≠ "") :
    Effect.NewSession ⟨some (regionOf e)⟩ ∈ (LambdaHandler w e).trace ∧
    (w.NewSession ⟨some (regionOf e)⟩ = none →
      Effect.DescribeCluster ⟨⟨some (regionOf e)⟩⟩ ⟨some e.KubernetesName⟩ ∈
        (LambdaHandler w e).trace ∧
      ∀ result,
        w.DescribeCluster ⟨⟨some (regionOf e)⟩⟩ ⟨some e.KubernetesName⟩ = .ok result →
        Effect.NewGenerator true false ∈ (LambdaHandler w e).trace ∧
        ∀ c, result.Cluster = some c → w.NewGenerator true false = none →
          Effect.GetWithOptions ⟨true, false⟩ { ClusterID := StringValue c.Name } ∈
            (LambdaHandler w e).trace ∧
          ∀ tok cert,
            w.GetWithOptions ⟨true, false⟩ { ClusterID := StringValue c.Name } = .ok tok →
            c.CertificateAuthority = some cert →
            Effect.DecodeString (StringValue cert.Data) ∈ (LambdaHandler w e).trace ∧
            ((w.DecodeString (StringValue cert.Data)).2 = none →
              Effect.NewForConfig
                { Host := StringValue c.Endpoint
                  BearerToken := tok.Token
                  TLSClientConfig :=
                    { CAData := (w.DecodeString (StringValue cert.Data)).1 } } ∈
                (LambdaHandler w e).trace)) := by
  have hc := handler_calls w e hn
  refine ⟨mem_of_mem_calls _ _ (by rw [hc]; simp), fun hS => ?_⟩
  simp only [hS] at hc
  refine ⟨mem_of_mem_calls _ _ (by rw [hc]; simp), fun result hD => ?_⟩
  have hsub := handler_sub w e result hn hS hD
  obtain ⟨p1, p2⟩ := newClientset_progress w result.Cluster (loggerFor e.LogLevel)
  refine ⟨hsub _ p1, fun c hcl hG => ?_⟩
  obtain ⟨p3, p4⟩ := p2 c hcl hG
  refine ⟨hsub _ p3, fun tok cert hT hca => ?_⟩
  obtain ⟨p5, p6⟩ := p4 tok cert hT hca
  exact ⟨hsub _ p5, fun hdec => hsub _ (p6 hdec)⟩

/-- When every step succeeds the handler returns ("Success", nil). -/
theorem handler_success_out (w : World) (e : Event) (c : Cluster) (cert : Certificate)
    (tok : Token) (cs : Clientset) (hn : e.KubernetesName ≠ "")
    (hS : w.NewSession ⟨some (regionOf e)⟩ = none)
    (hD : w.DescribeCluster ⟨⟨some (regionOf e)⟩⟩ ⟨some e.KubernetesName⟩ = .ok ⟨some c⟩)
    (hG : w.NewGenerator true false = none)
    (hT : w.GetWithOptions ⟨true, false⟩ { ClusterID := StringValue c.Name } = .ok tok)
    (hca : c.CertificateAuthority = some cert)
    (hdec : (w.DecodeString (StringValue cert.Data)).2 = none)
    (hN : w.NewForConfig
      { Host := StringValue c.Endpoint
        BearerToken := tok.Token
        TLSClientConfig := { CAData := (w.DecodeString (StringValue cert.Data)).1 } } =
      .ok cs) :
    (LambdaHandler w e).out = .ret ("Success", none) := by
  rw [handler_out w e hn, hS, hD]
  simp [newClientset_eq, hG, hT, hca, hdec, hN]

/-- The stub client constructor accepts the configuration built from `caData`. -/
theorem stub_accepts (host token : String) :
    stubWorld.NewForConfig
      { Host := host
        BearerToken := token
        TLSClientConfig := { CAData := (stdDecodeString caData).1 } } = .ok ⟨1⟩ := by
  simp [stubWorld, caData_decodes]


/-! ## The claims -/

/-- C1: for every Event whose KubernetesName is empty, whatever Region and LogLevel are,
`LambdaHandler` returns exactly the pair ("empty Kubernetes Name", nil), in every world. -/
theorem C1_empty_name_result (w : World) (region logLevel : String) :
    (LambdaHandler w ⟨"", region, logLevel⟩).out = .ret ("empty Kubernetes Name", none) :=
  (handler_empty w ⟨"", region, logLevel⟩ rfl).1

/-- C2: every DescribeCluster call of the handler is made on the session created from a
configuration whose region is `Event.Region` when that is non-empty and "eu-west-1"
otherwise, hence never the empty string; and with a non-empty KubernetesName and an empty
Region the session is configured with "eu-west-1" and, once it is created, the describe
call is made on it. -/
theorem C2_region_never_empty (w : World) (e : Event) :
    (∀ sess input, Effect.DescribeCluster sess input ∈ (LambdaHandler w e).trace →
      Effect.NewSession sess.Config ∈ (LambdaHandler w e).trace ∧
      sess.Config.Region = some (if e.Region = "" then "eu-west-1" else e.Region) ∧
      sess.Config.Region ≠ some "" ∧ sess.Config.Region ≠ none) ∧
    (e.KubernetesName ≠ "" → e.Region = "" →
      Effect.NewSession ⟨some "eu-west-1"⟩ ∈ (LambdaHandler w e).trace ∧
      (w.NewSession ⟨some "eu-west-1"⟩ = none →
        Effect.DescribeCluster ⟨⟨some "eu-west-1"⟩⟩ ⟨some e.KubernetesName⟩ ∈
          (LambdaHandler w e).trace)) := by
  constructor
  · intro sess input hmem
    obtain ⟨hn, -, hsess, -⟩ := describe_mem w e sess input hmem
    subst hsess
    have hS : Effect.NewSession ⟨some (regionOf e)⟩ ∈ calls (LambdaHandler w e).trace := by
      rw [handler_calls w e hn]; simp
    refine ⟨mem_of_mem_calls _ _ hS, rfl, ?_, by simp⟩
    simp only [regionOf]
    split_ifs with hr
    · simp
    · simpa using hr
  · intro hn hr
    have hreg : regionOf e = "eu-west-1" := by simp [regionOf, hr]
    have hcalls := handler_calls w e hn
    rw [hreg] at hcalls
    refine ⟨mem_of_mem_calls _ _ (by rw [hcalls]; simp), fun hs => ?_⟩
    rw [hs] at hcalls
    exact mem_of_mem_calls _ _ (by rw [hcalls]; simp)

/-- Witness of C2: the end-to-end event (empty Region) in the stub world. -/
theorem C2_region_never_empty_witness :
    Effect.NewSession ⟨some "eu-west-1"⟩ ∈ (LambdaHandler stubWorld prodEvent).trace ∧
    Effect.DescribeCluster ⟨⟨some "eu-west-1"⟩⟩ ⟨some "prod-cluster"⟩ ∈
      (LambdaHandler stubWorld prodEvent).trace :=
  ⟨((C2_region_never_empty stubWorld prodEvent).2 (by decide) (by decide)).1,
   ((C2_region_never_empty stubWorld prodEvent).2 (by decide) (by decide)).2 (by decide)⟩

/-- C3: if the DescribeCluster call of an invocation reports an error `err`, then
`LambdaHandler` returns ("Error Describing Clusters", err), with that very error, and
neither the token generator (`NewGenerator`, `GetWithOptions`) nor the CA decoding nor
`kubernetes.NewForConfig` is invoked. -/
theorem C3_describe_error (w : World) (e : Event) (sess : Session)
    (input : DescribeClusterInput) (err : GoError)
    (hcall : Effect.DescribeCluster sess input ∈ (LambdaHandler w e).trace)
    (herr : w.DescribeCluster sess input = .error err) :
    (LambdaHandler w e).out = .ret ("Error Describing Clusters", some err) ∧
    (∀ f c, Effect.NewGenerator f c ∉ (LambdaHandler w e).trace) ∧
    (∀ gen opts, Effect.GetWithOptions gen opts ∉ (LambdaHandler w e).trace) ∧
    (∀ s, Effect.DecodeString s ∉ (LambdaHandler w e).trace) ∧
    (∀ cfg, Effect.NewForConfig cfg ∉ (LambdaHandler w e).trace) := by
  obtain ⟨hn, hS, hsess, hinput⟩ := describe_mem w e sess input hcall
  subst hsess hinput
  have hno : ∀ x, x ∈ (LambdaHandler w e).trace →
      ¬ (x.step = some .Generator ∨ x.step = some .Sign ∨ x.step = some .DecodeCA ∨
        x.step = some .Assemble) := by
    intro x hx hstep
    obtain ⟨-, -, result, hD, -⟩ := later_mem w e x hx hstep
    rw [herr] at hD
    cases hD
  refine ⟨?_, ?_, ?_, ?_, ?_⟩
  · rw [handler_out w e hn, hS, herr]
  · exact fun f c h => hno _ h (by simp [Effect.step])
  · exact fun g o h => hno _ h (by simp [Effect.step])
  · exact fun s h => hno _ h (by simp [Effect.step])
  · exact fun cfg h => hno _ h (by simp [Effect.step])

/-- Witness of C3: the cluster "ghost-cluster" is not found. -/
theorem C3_describe_error_witness :
    (Effect.DescribeCluster ⟨⟨some "eu-west-1"⟩⟩ ⟨some "ghost-cluster"⟩ ∈
      (LambdaHandler notFoundWorld ⟨"ghost-cluster", "", ""⟩).trace ∧
     notFoundWorld.DescribeCluster ⟨⟨some "eu-west-1"⟩⟩ ⟨some "ghost-cluster"⟩ =
      .error (.external "ResourceNotFoundException")) ∧
    (LambdaHandler notFoundWorld ⟨"ghost-cluster", "", ""⟩).out =
      .ret ("Error Describing Clusters", some (.external "ResourceNotFoundException")) :=
  ⟨⟨by decide, rfl⟩,
   (C3_describe_error notFoundWorld ⟨"ghost-cluster", "", ""⟩ ⟨⟨some "eu-west-1"⟩⟩
    ⟨some "ghost-cluster"⟩ (.external "ResourceNotFoundException") (by decide) rfl).1⟩

/-- C4, as stated, fails: the CA data "not base64" does not decode, yet the error that
`LambdaHandler` returns is the one of the token generator, not the decode error: the token
is generated before the CA data is decoded. -/
theorem C4_counterexample :
    badCANoCredentialsWorld.DescribeCluster ⟨⟨some "eu-west-1"⟩⟩ ⟨some "prod-cluster"⟩ =
      .ok ⟨some ⟨some "prod-cluster", some "https://x.eks.amazonaws.com",
        some ⟨some "not base64"⟩⟩⟩ ∧
    (badCANoCredentialsWorld.DecodeString "not base64").2 = some (.CorruptInputError 3) ∧
    (LambdaHandler badCANoCredentialsWorld prodEvent).out =
      .ret ("Error creating clientset", some (.external "NoCredentialProviders")) ∧
    ¬ ∃ status, (LambdaHandler badCANoCredentialsWorld prodEvent).out =
      .ret (status, (badCANoCredentialsWorld.DecodeString "not base64").2) := by
  have hdec : (badCANoCredentialsWorld.DecodeString "not base64").2 =
      some (.CorruptInputError 3) := by decide
  have hout : (LambdaHandler badCANoCredentialsWorld prodEvent).out =
      .ret ("Error creating clientset", some (.external "NoCredentialProviders")) := by decide
  refine ⟨rfl, hdec, hout, ?_⟩
  rintro ⟨status, h⟩
  rw [hout, hdec] at h
  simp at h

/-- C4, amended: when the describe call returns a cluster whose certificate-authority data
does not decode, `LambdaHandler` returns the status "Error creating clientset" (not
"Success") with a non-nil error and `kubernetes.NewForConfig` is never invoked; the error
returned is the decode error when the token was generated, the error of
`token.NewGenerator` when the generator could not be built, and the error of
`GetWithOptions` when the token could not be generated. -/
theorem C4_bad_ca_no_client (w : World) (e : Event) (sess : Session)
    (input : DescribeClusterInput) (c : Cluster) (cert : Certificate) (derr : GoError)
    (hcall : Effect.DescribeCluster sess input ∈ (LambdaHandler w e).trace)
    (hdesc : w.DescribeCluster sess input = .ok ⟨some c⟩)
    (hca : c.CertificateAuthority = some cert)
    (hdec : (w.DecodeString (StringValue cert.Data)).2 = some derr) :
    (∀ tok, w.NewGenerator true false = none →
      w.GetWithOptions ⟨true, false⟩ { ClusterID := StringValue c.Name } = .ok tok →
      (LambdaHandler w e).out = .ret ("Error creating clientset", some derr)) ∧
    (∀ gerr, w.NewGenerator true false = some gerr →
      (LambdaHandler w e).out = .ret ("Error creating clientset", some gerr)) ∧
    (∀ terr, w.NewGenerator true false = none →
      w.GetWithOptions ⟨true, false⟩ { ClusterID := StringValue c.Name } = .error terr →
      (LambdaHandler w e).out = .ret ("Error creating clientset", some terr)) ∧
    (∃ err, (LambdaHandler w e).out = .ret ("Error creating clientset", some err)) ∧
    (∀ cfg, Effect.NewForConfig cfg ∉ (LambdaHandler w e).trace) := by
  obtain ⟨hn, hS, hsess, hinput⟩ := describe_mem w e sess input hcall
  subst hsess hinput
  have hout := handler_out w e hn
  rw [hS, hdesc] at hout
  simp only [newClientset_eq] at hout
  refine ⟨?_, ?_, ?_, ?_, ?_⟩
  · intro tok hG hT
    rw [hout]
    simp [hG, hT, hca, hdec]
  · intro gerr hG
    rw [hout]
    simp [hG]
  · intro terr hG hT
    rw [hout]
    simp [hG, hT]
  · rw [hout]
    cases hG : w.NewGenerator true false with
    | some gerr => simp
    | none =>
      cases hT : w.GetWithOptions ⟨true, false⟩ { ClusterID := StringValue c.Name } with
      | error terr => simp [hT]
      | ok tok => simp [hT, hca, hdec]
  · intro cfg hmem
    obtain ⟨-, -, result, hD, hx⟩ := later_mem w e _ hmem (by simp [Effect.step])
    rw [hdesc] at hD
    cases hD
    have := newClientset_mem w _ _ _ hx
    simp [hca] at this
    obtain ⟨-, -, -, h, -⟩ := this
    rw [hdec] at h
    cases h

/-- Witness of C4: CA data that does not decode.  With a working token generator the
handler returns the decode error; without credentials it returns the error of the token
generator; in neither case is `kubernetes.NewForConfig` called. -/
theorem C4_bad_ca_no_client_witness :
    (Effect.DescribeCluster ⟨⟨some "eu-west-1"⟩⟩ ⟨some "prod-cluster"⟩ ∈
      (LambdaHandler badCAWorld prodEvent).trace ∧
     (badCAWorld.DecodeString "not base64").2 = some (.CorruptInputError 3)) ∧
    (LambdaHandler badCAWorld prodEvent).out =
      .ret ("Error creating clientset", some (.CorruptInputError 3)) ∧
    (∀ cfg, Effect.NewForConfig cfg ∉ (LambdaHandler badCAWorld prodEvent).trace) ∧
    (LambdaHandler badCANoCredentialsWorld prodEvent).out =
      .ret ("Error creating clientset", some (.external "NoCredentialProviders")) := by
  have hmem : Effect.DescribeCluster ⟨⟨some "eu-west-1"⟩⟩ ⟨some "prod-cluster"⟩ ∈
      (LambdaHandler badCAWorld prodEvent).trace := by decide
  have hmem2 : Effect.DescribeCluster ⟨⟨some "eu-west-1"⟩⟩ ⟨some "prod-cluster"⟩ ∈
      (LambdaHandler badCANoCredentialsWorld prodEvent).trace := by decide
  have hdec : (badCAWorld.DecodeString "not base64").2 = some (.CorruptInputError 3) := by
    decide
  have key := C4_bad_ca_no_client badCAWorld prodEvent ⟨⟨some "eu-west-1"⟩⟩
    ⟨some "prod-cluster"⟩
    ⟨some "prod-cluster", some "https://x.eks.amazonaws.com", some ⟨some "not base64"⟩⟩
    ⟨some "not base64"⟩ (.CorruptInputError 3) hmem rfl rfl hdec
  have key2 := C4_bad_ca_no_client badCANoCredentialsWorld prodEvent ⟨⟨some "eu-west-1"⟩⟩
    ⟨some "prod-cluster"⟩
    ⟨some "prod-cluster", some "https://x.eks.amazonaws.com", some ⟨some "not base64"⟩⟩
    ⟨some "not base64"⟩ (.CorruptInputError 3) hmem2 rfl rfl hdec
  exact ⟨⟨hmem, hdec⟩, key.1 ⟨"k8s-aws-v1.prod-cluster", 900⟩ rfl rfl, key.2.2.2.2,
    key2.2.2.1 (.external "NoCredentialProviders") rfl rfl⟩

/-- C5, as stated, fails: "prod-cluster" is requested, the control plane answers with the
descriptor of "other-cluster" (with a CA that is a PEM certificate), and the handler still
signs for "other-cluster", invokes the client constructor and returns "Success": nothing
compares the descriptor with the request. -/
theorem C5_counterexample :
    otherNameWorld.DescribeCluster ⟨⟨some "eu-west-1"⟩⟩ ⟨some prodEvent.KubernetesName⟩ =
      .ok ⟨some ⟨some "other-cluster", some "https://y.eks.amazonaws.com",
        some ⟨some caData⟩⟩⟩ ∧
    prodEvent.KubernetesName ≠ "other-cluster" ∧
    otherNameWorld.DecodeString caData = (goBytes caPEM, none) ∧
    (LambdaHandler otherNameWorld prodEvent).out = .ret ("Success", none) ∧
    Effect.GetWithOptions ⟨true, false⟩ { ClusterID := "other-cluster" } ∈
      (LambdaHandler otherNameWorld prodEvent).trace ∧
    Effect.NewForConfig
      { Host := "https://y.eks.amazonaws.com"
        BearerToken := "k8s-aws-v1.other-cluster"
        TLSClientConfig := { CAData := (otherNameWorld.DecodeString caData).1 } } ∈
      (LambdaHandler otherNameWorld prodEvent).trace := by
  have hn : prodEvent.KubernetesName ≠ "" := by decide
  have hD : otherNameWorld.DescribeCluster ⟨⟨some (regionOf prodEvent)⟩⟩
      ⟨some prodEvent.KubernetesName⟩ =
      .ok ⟨some ⟨some "other-cluster", some "https://y.eks.amazonaws.com",
        some ⟨some caData⟩⟩⟩ := rfl
  have hT : otherNameWorld.GetWithOptions ⟨true, false⟩
      { ClusterID := StringValue (some "other-cluster") } =
      .ok ⟨"k8s-aws-v1.other-cluster", 900⟩ := rfl
  have hdec : (otherNameWorld.DecodeString (StringValue (some caData))).2 = none :=
    congrArg Prod.snd caData_decodes
  have hprog := ((((handler_progress otherNameWorld prodEvent hn).2 rfl).2 _ hD).2 _ rfl
    rfl)
  have hstd : otherNameWorld.DecodeString = stdDecodeString := rfl
  refine ⟨rfl, by decide, by rw [hstd]; exact caData_decodes, ?_, hprog.1,
    ((hprog.2 _ _ hT rfl).2 hdec)⟩
  have hnew : otherNameWorld.NewForConfig = stubWorld.NewForConfig := rfl
  have hN : otherNameWorld.NewForConfig
      { Host := "https://y.eks.amazonaws.com"
        BearerToken := "k8s-aws-v1.other-cluster"
        TLSClientConfig := { CAData := (otherNameWorld.DecodeString caData).1 } } =
      .ok ⟨1⟩ := by
    rw [hnew, hstd]
    exact stub_accepts _ _
  exact handler_success_out otherNameWorld prodEvent
    ⟨some "other-cluster", some "https://y.eks.amazonaws.com", some ⟨some caData⟩⟩
    ⟨some caData⟩ ⟨"k8s-aws-v1.other-cluster", 900⟩ ⟨1⟩ hn rfl hD rfl hT rfl hdec hN

/-- C5, amended: whenever `kubernetes.NewForConfig` is invoked, its configuration pairs
the endpoint of the cluster descriptor that the describe call returned with the token that
was generated for the name of that same descriptor: every `GetWithOptions` call of the
invocation carries `ClusterID = aws.StringValue(descriptor.Name)`, so the identifier
signed and the identifier of the descriptor cannot differ.  (No comparison with the requested
name is made.) -/
theorem C5_handle_pairs_descriptor_and_its_token (w : World) (e : Event) (cfg : RestConfig)
    (h : Effect.NewForConfig cfg ∈ (LambdaHandler w e).trace) :
    ∃ c tok,
      w.DescribeCluster ⟨⟨some (regionOf e)⟩⟩ ⟨some e.KubernetesName⟩ = .ok ⟨some c⟩ ∧
      Effect.GetWithOptions ⟨true, false⟩ { ClusterID := StringValue c.Name } ∈
        (LambdaHandler w e).trace ∧
      w.GetWithOptions ⟨true, false⟩ { ClusterID := StringValue c.Name } = .ok tok ∧
      cfg.BearerToken = tok.Token ∧ cfg.Host = StringValue c.Endpoint ∧
      (∀ gen opts, Effect.GetWithOptions gen opts ∈ (LambdaHandler w e).trace →
        opts.ClusterID = StringValue c.Name) := by
  obtain ⟨hn, hS, result, hD, hx⟩ := later_mem w e _ h (by simp [Effect.step])
  have h1 := newClientset_mem w _ _ _ hx
  simp only [reduceCtorEq, false_or] at h1
  obtain ⟨c, hc, hG, tok, cert, hT, hca, -, hcfg⟩ := h1
  have hres : result = ⟨some c⟩ := by cases result; simp_all
  subst hres
  refine ⟨c, tok, hD, ?_, hT, ?_, ?_, ?_⟩
  · apply handler_sub w e _ hn hS hD
    rw [newClientset_eq]
    simp [hG, hT, hca]
    split <;> (try split) <;> simp
  · injection hcfg with hcfg; rw [hcfg]
  · injection hcfg with hcfg; rw [hcfg]
  · intro gen opts hmem
    obtain ⟨-, -, result2, hD2, hx2⟩ := later_mem w e _ hmem (by simp [Effect.step])
    rw [hD] at hD2
    cases hD2
    have h2 := newClientset_mem w _ _ _ hx2
    simp only [reduceCtorEq, false_or] at h2
    obtain ⟨c2, hc2, -, h2⟩ := h2
    cases hc2
    simp only [reduceCtorEq, false_and, and_false, exists_false, or_false, false_or] at h2
    injection h2 with _ h2
    rw [h2]

/-- Witness of C5: the configuration built in the end-to-end scenario. -/
theorem C5_handle_pairs_descriptor_and_its_token_witness :
    Effect.NewForConfig
      { Host := "https://x.eks.amazonaws.com"
        BearerToken := "k8s-aws-v1.prod-cluster"
        TLSClientConfig := { CAData := (stdDecodeString caData).1 } } ∈
      (LambdaHandler stubWorld prodEvent).trace ∧
    ∃ c tok,
      stubWorld.DescribeCluster ⟨⟨some (regionOf prodEvent)⟩⟩
        ⟨some prodEvent.KubernetesName⟩ = .ok ⟨some c⟩ ∧
      Effect.GetWithOptions ⟨true, false⟩ { ClusterID := StringValue c.Name } ∈
        (LambdaHandler stubWorld prodEvent).trace ∧
      stubWorld.GetWithOptions ⟨true, false⟩ { ClusterID := StringValue c.Name } = .ok tok ∧
      "k8s-aws-v1.prod-cluster" = tok.Token ∧
      "https://x.eks.amazonaws.com" = StringValue c.Endpoint ∧
      (∀ gen opts, Effect.GetWithOptions gen opts ∈ (LambdaHandler stubWorld prodEvent).trace →
        opts.ClusterID = StringValue c.Name) := by
  have hn : prodEvent.KubernetesName ≠ "" := by decide
  have hD : stubWorld.DescribeCluster ⟨⟨some (regionOf prodEvent)⟩⟩
      ⟨some prodEvent.KubernetesName⟩ =
      .ok ⟨some ⟨some "prod-cluster", some "https://x.eks.amazonaws.com",
        some ⟨some caData⟩⟩⟩ := rfl
  have hT : stubWorld.GetWithOptions ⟨true, false⟩
      { ClusterID := StringValue (some "prod-cluster") } =
      .ok ⟨"k8s-aws-v1.prod-cluster", 900⟩ := rfl
  have hdec : (stubWorld.DecodeString (StringValue (some caData))).2 = none :=
    congrArg Prod.snd caData_decodes
  have hmem := (((((handler_progress stubWorld prodEvent hn).2 rfl).2 _ hD).2 _ rfl
    rfl).2 _ _ hT rfl).2 hdec
  exact ⟨hmem, C5_handle_pairs_descriptor_and_its_token stubWorld prodEvent _ hmem⟩

/-- C6: for every Event with a non-empty KubernetesName, `LambdaHandler` returns
("Success", nil) exactly when the session is created, the describe call returns a cluster,
the token generator is built and returns a token for it, the CA data of the cluster decodes
and `kubernetes.NewForConfig` returns a clientset for the resulting configuration; and a
"Success" status never comes with a non-nil error. -/
theorem C6_success_iff_all_steps_succeed (w : World) (e : Event)
    (hname : e.KubernetesName ≠ "") :
    ((∃ c cert tok cs,
        w.NewSession ⟨some (regionOf e)⟩ = none ∧
        w.DescribeCluster ⟨⟨some (regionOf e)⟩⟩ ⟨some e.KubernetesName⟩ = .ok ⟨some c⟩ ∧
        w.NewGenerator true false = none ∧
        w.GetWithOptions ⟨true, false⟩ { ClusterID := StringValue c.Name } = .ok tok ∧
        c.CertificateAuthority = some cert ∧
        (w.DecodeString (StringValue cert.Data)).2 = none ∧
        w.NewForConfig
          { Host := StringValue c.Endpoint
            BearerToken := tok.Token
            TLSClientConfig := { CAData := (w.DecodeString (StringValue cert.Data)).1 } } =
          .ok cs) ↔
      (LambdaHandler w e).out = .ret ("Success", none)) ∧
    (∀ err, (LambdaHandler w e).out = .ret ("Success", err) → err = none) := by
  rw [handler_out w e hname]
  cases hS : w.NewSession ⟨some (regionOf e)⟩ with
  | some serr => simp
  | none =>
    cases hD : w.DescribeCluster ⟨⟨some (regionOf e)⟩⟩ ⟨some e.KubernetesName⟩ with
    | error derr => simp
    | ok result =>
      obtain ⟨cluster⟩ := result
      simp only [newClientset_eq]
      cases hG : w.NewGenerator true false with
      | some gerr => simp
      | none =>
        cases cluster with
        | none => simp
        | some c =>
          cases hT : w.GetWithOptions ⟨true, false⟩ { ClusterID := StringValue c.Name } with
          | error terr => simp [hT]
          | ok tok =>
            cases hca : c.CertificateAuthority with
            | none => simp [hT, hca]
            | some cert =>
              cases hdec : (w.DecodeString (StringValue cert.Data)).2 with
              | some derr => simp [hT, hca, hdec]
              | none =>
                cases hN : w.NewForConfig
                    { Host := StringValue c.Endpoint
                      BearerToken := tok.Token
                      TLSClientConfig :=
                        { CAData := (w.DecodeString (StringValue cert.Data)).1 } } with
                | error nerr => simp [hT, hca, hdec, hN]
                | ok cs => simp [hT, hca, hdec, hN]

/-- Witness of C6: the end-to-end scenario, with empty Region and LogLevel "debug". -/
theorem C6_success_iff_all_steps_succeed_witness :
    prodEvent.KubernetesName ≠ "" ∧
    (LambdaHandler stubWorld ⟨"prod-cluster", "", "debug"⟩).out = .ret ("Success", none) :=
  ⟨by decide,
   (C6_success_iff_all_steps_succeed stubWorld ⟨"prod-cluster", "", "debug"⟩
      (by decide)).1.mp
    ⟨⟨some "prod-cluster", some "https://x.eks.amazonaws.com", some ⟨some caData⟩⟩,
      ⟨some caData⟩, ⟨"k8s-aws-v1.prod-cluster", 900⟩, ⟨1⟩,
      rfl, rfl, rfl, rfl, rfl, congrArg Prod.snd caData_decodes, stub_accepts _ _⟩⟩

/-- C7, as stated, fails: "prod-cluster" is requested, the descriptor returned carries no
name, and the token generator is invoked with an empty ClusterID. -/
theorem C7_counterexample :
    prodEvent.KubernetesName = "prod-cluster" ∧
    Effect.GetWithOptions ⟨true, false⟩ { ClusterID := "" } ∈
      (LambdaHandler noNameWorld prodEvent).trace := by
  refine ⟨rfl, by decide⟩

/-- C7, amended: the ClusterID passed to the token generator is
`aws.StringValue(descriptor.Name)`, the name in the cluster descriptor that the describe
call returned for the requested name; when that descriptor carries the requested name,
the ClusterID equals `Event.KubernetesName` and is non-empty. -/
theorem C7_cluster_id_is_descriptor_name (w : World) (e : Event) (gen : Generator)
    (opts : GetTokenOptions)
    (h : Effect.GetWithOptions gen opts ∈ (LambdaHandler w e).trace) :
    ∃ c,
      w.DescribeCluster ⟨⟨some (regionOf e)⟩⟩ ⟨some e.KubernetesName⟩ = .ok ⟨some c⟩ ∧
      opts.ClusterID = StringValue c.Name ∧
      (c.Name = some e.KubernetesName →
        opts.ClusterID = e.KubernetesName ∧ opts.ClusterID ≠ "") := by
  obtain ⟨hn, -, result, hD, hx⟩ := later_mem w e _ h (by simp [Effect.step])
  have h1 := newClientset_mem w _ _ _ hx
  simp only [reduceCtorEq, false_or] at h1
  obtain ⟨c, hc, -, h1⟩ := h1
  simp only [reduceCtorEq, false_and, and_false, exists_false, or_false, false_or] at h1
  have hres : result = ⟨some c⟩ := by cases result; simp_all
  subst hres
  injection h1 with _ h1
  subst h1
  refine ⟨c, hD, rfl, fun hname => ?_⟩
  simp only [hname, StringValue]
  exact ⟨trivial, hn⟩

/-- Witness of C7: in the stub world the descriptor carries the requested name. -/
theorem C7_cluster_id_is_descriptor_name_witness :
    Effect.GetWithOptions ⟨true, false⟩ { ClusterID := "prod-cluster" } ∈
      (LambdaHandler stubWorld prodEvent).trace ∧
    ∃ c,
      stubWorld.DescribeCluster ⟨⟨some (regionOf prodEvent)⟩⟩
        ⟨some prodEvent.KubernetesName⟩ = .ok ⟨some c⟩ ∧
      "prod-cluster" = StringValue c.Name ∧
      (c.Name = some prodEvent.KubernetesName →
        "prod-cluster" = prodEvent.KubernetesName ∧ "prod-cluster" ≠ "") := by
  have hn : prodEvent.KubernetesName ≠ "" := by decide
  have hD : stubWorld.DescribeCluster ⟨⟨some (regionOf prodEvent)⟩⟩
      ⟨some prodEvent.KubernetesName⟩ =
      .ok ⟨some ⟨some "prod-cluster", some "https://x.eks.amazonaws.com",
        some ⟨some caData⟩⟩⟩ := rfl
  have hmem : Effect.GetWithOptions ⟨true, false⟩ { ClusterID := "prod-cluster" } ∈
      (LambdaHandler stubWorld prodEvent).trace :=
    ((((handler_progress stubWorld prodEvent hn).2 rfl).2 _ hD).2 _ rfl rfl).1
  exact ⟨hmem, C7_cluster_id_is_descriptor_name stubWorld prodEvent ⟨true, false⟩
      { ClusterID := "prod-cluster" } hmem⟩

/-- C8: `newClientset` invokes `kubernetes.NewForConfig` exactly when the token was
generated and the CA data decoded, and then with the configuration whose Host is the
endpoint of the descriptor, whose BearerToken is the value of the generated token and whose
TLS CAData is the base64-decoding of the certificate-authority data of the descriptor; every other
credential or trust field of that configuration has its zero value (no insecure flag, no
CA file, no client certificate, no basic auth, no token file, no auth or exec provider). -/
theorem C8_config_handed_to_NewForConfig (w : World) (cluster : Option Cluster)
    (sugar : SugaredLogger) (cfg : RestConfig) :
    (Effect.NewForConfig cfg ∈ (newClientset w cluster sugar).trace ↔
      ∃ c cert tok,
        cluster = some c ∧ c.CertificateAuthority = some cert ∧
        w.NewGenerator true false = none ∧
        w.GetWithOptions ⟨true, false⟩ { ClusterID := StringValue c.Name } = .ok tok ∧
        (w.DecodeString (StringValue cert.Data)).2 = none ∧
        cfg =
          { Host := StringValue c.Endpoint
            BearerToken := tok.Token
            TLSClientConfig := { CAData := (w.DecodeString (StringValue cert.Data)).1 } }) ∧
    (Effect.NewForConfig cfg ∈ (newClientset w cluster sugar).trace →
      cfg.TLSClientConfig.Insecure = false ∧ cfg.TLSClientConfig.CAFile = "" ∧
      cfg.TLSClientConfig.ServerName = "" ∧
      cfg.TLSClientConfig.CertFile = "" ∧ cfg.TLSClientConfig.KeyFile = "" ∧
      cfg.TLSClientConfig.CertData = [] ∧ cfg.TLSClientConfig.KeyData = [] ∧
      cfg.Username = "" ∧ cfg.Password = "" ∧ cfg.BearerTokenFile = "" ∧
      cfg.ImpersonateUserName = "" ∧ cfg.AuthProvider = none ∧ cfg.ExecProvider = none ∧
      cfg.APIPath = "") := by
  have key : Effect.NewForConfig cfg ∈ (newClientset w cluster sugar).trace ↔
      ∃ c cert tok,
        cluster = some c ∧ c.CertificateAuthority = some cert ∧
        w.NewGenerator true false = none ∧
        w.GetWithOptions ⟨true, false⟩ { ClusterID := StringValue c.Name } = .ok tok ∧
        (w.DecodeString (StringValue cert.Data)).2 = none ∧
        cfg =
          { Host := StringValue c.Endpoint
            BearerToken := tok.Token
            TLSClientConfig := { CAData := (w.DecodeString (StringValue cert.Data)).1 } } := by
    constructor
    · intro h
      have h1 := newClientset_mem w _ _ _ h
      simp only [reduceCtorEq, false_or] at h1
      obtain ⟨c, hc, hG, tok, cert, hT, hca, hdec, hcfg⟩ := h1
      injection hcfg with hcfg
      exact ⟨c, cert, tok, hc, hca, hG, hT, hdec, hcfg⟩
    · rintro ⟨c, cert, tok, hc, hca, hG, hT, hdec, hcfg⟩
      subst hc hcfg
      rw [newClientset_eq]
      simp only [hG, hT, hca, hdec]
      split <;> simp
  refine ⟨key, fun h => ?_⟩
  obtain ⟨c, cert, tok, -, -, -, -, -, hcfg⟩ := key.1 h
  subst hcfg
  simp

/-- Witness of C8: the configuration built from the stub descriptor. -/
theorem C8_config_handed_to_NewForConfig_witness :
    Effect.NewForConfig
      { Host := "https://x.eks.amazonaws.com"
        BearerToken := "k8s-aws-v1.prod-cluster"
        TLSClientConfig := { CAData := (stdDecodeString caData).1 } } ∈
      (newClientset stubWorld
        (some ⟨some "prod-cluster", some "https://x.eks.amazonaws.com",
          some ⟨some caData⟩⟩) ⟨.Debug⟩).trace :=
  (C8_config_handed_to_NewForConfig stubWorld
    (some ⟨some "prod-cluster", some "https://x.eks.amazonaws.com", some ⟨some caData⟩⟩)
    ⟨.Debug⟩ _).1.mpr
    ⟨_, _, ⟨"k8s-aws-v1.prod-cluster", 900⟩, rfl, rfl, rfl, rfl,
      congrArg Prod.snd caData_decodes, rfl⟩

/-- C9, as stated, fails: with CA data that does not decode, the token generator is
still invoked, and it is invoked before the CA data is decoded. -/
theorem C9_counterexample :
    (badCAWorld.DecodeString "not base64").2 = some (.CorruptInputError 3) ∧
    calls (LambdaHandler badCAWorld prodEvent).trace =
      [ .NewSession ⟨some "eu-west-1"⟩,
        .DescribeCluster ⟨⟨some "eu-west-1"⟩⟩ ⟨some "prod-cluster"⟩,
        .NewGenerator true false,
        .GetWithOptions ⟨true, false⟩ { ClusterID := "prod-cluster" },
        .DecodeString "not base64" ] := by
  refine ⟨by decide, by decide⟩

/-- C9, amended: the library calls of every invocation are an initial segment of the
sequence session creation, DescribeCluster (Resolve), NewGenerator and GetWithOptions
(Sign), base64-decoding of the CA data, NewForConfig (Assemble), in this order; every call
but the last one made has succeeded, so an error in any step means that no later step is
invoked; with an empty KubernetesName (Validate) no call is made at all; the token
generator is invoked only after a describe call that succeeded; and with a non-empty
KubernetesName each call is made as soon as the calls before it succeeded: in particular
`GetWithOptions` is invoked once the describe call returned a cluster and the generator
was built, whether or not the CA data decodes, and the CA data is decoded only after the
token was generated. -/
theorem C9_steps_in_order (w : World) (e : Event) :
    steps (LambdaHandler w e).trace <+: Step.order ∧
    (∀ x ∈ (calls (LambdaHandler w e).trace).dropLast, w.succeeded x = true) ∧
    (e.KubernetesName = "" → calls (LambdaHandler w e).trace = []) ∧
    (∀ gen opts, Effect.GetWithOptions gen opts ∈ (LambdaHandler w e).trace →
      ∃ sess input result,
        Effect.DescribeCluster sess input ∈ (LambdaHandler w e).trace ∧
        w.DescribeCluster sess input = .ok result) ∧
    (e.KubernetesName ≠ "" →
      Effect.NewSession ⟨some (regionOf e)⟩ ∈ (LambdaHandler w e).trace ∧
      (w.NewSession ⟨some (regionOf e)⟩ = none →
        Effect.DescribeCluster ⟨⟨some (regionOf e)⟩⟩ ⟨some e.KubernetesName⟩ ∈
          (LambdaHandler w e).trace ∧
        ∀ result,
          w.DescribeCluster ⟨⟨some (regionOf e)⟩⟩ ⟨some e.KubernetesName⟩ = .ok result →
          Effect.NewGenerator true false ∈ (LambdaHandler w e).trace ∧
          ∀ c, result.Cluster = some c → w.NewGenerator true false = none →
            Effect.GetWithOptions ⟨true, false⟩ { ClusterID := StringValue c.Name } ∈
              (LambdaHandler w e).trace ∧
            ∀ tok cert,
              w.GetWithOptions ⟨true, false⟩ { ClusterID := StringValue c.Name } = .ok tok →
              c.CertificateAuthority = some cert →
              Effect.DecodeString (StringValue cert.Data) ∈ (LambdaHandler w e).trace ∧
              ((w.DecodeString (StringValue cert.Data)).2 = none →
                Effect.NewForConfig
                  { Host := StringValue c.Endpoint
                    BearerToken := tok.Token
                    TLSClientConfig :=
                      { CAData := (w.DecodeString (StringValue cert.Data)).1 } } ∈
                  (LambdaHandler w e).trace))) := by
  refine ⟨?_, ?_, fun hn => (handler_empty w e hn).2, ?_, handler_progress w e⟩
  · rw [← steps_calls]
    by_cases hn : e.KubernetesName = ""
    · rw [(handler_empty w e hn).2]; decide
    · rw [handler_calls w e hn]
      simp only [newClientset_eq]
      repeat' split
      all_goals
        simp only [steps, calls, List.filter_cons, List.filter_nil, List.filterMap_cons,
          List.filterMap_nil, Effect.step, Effect.isCall, if_true]
        decide
  · by_cases hn : e.KubernetesName = ""
    · rw [(handler_empty w e hn).2]; simp
    · rw [handler_calls w e hn]
      simp only [newClientset_eq]
      repeat' split
      all_goals simp_all [World.succeeded, Except.toBool, calls, Effect.isCall]
  · intro gen opts h
    obtain ⟨hn, hS, result, hD, -⟩ := later_mem w e _ h (by simp [Effect.step])
    refine ⟨_, _, result, ?_, hD⟩
    apply mem_of_mem_calls
    rw [handler_calls w e hn, hS]
    simp

/-- Witness of C9: a descriptor whose CA data does not decode.  The token generator is
invoked for it, then the decoding is attempted and fails, and the calls made are in
order. -/
theorem C9_steps_in_order_witness :
    (prodEvent.KubernetesName ≠ "" ∧
     (badCAWorld.DecodeString "not base64").2 = some (.CorruptInputError 3)) ∧
    Effect.GetWithOptions ⟨true, false⟩ { ClusterID := "prod-cluster" } ∈
      (LambdaHandler badCAWorld prodEvent).trace ∧
    Effect.DecodeString "not base64" ∈ (LambdaHandler badCAWorld prodEvent).trace ∧
    steps (LambdaHandler badCAWorld prodEvent).trace <+: Step.order :=
  ⟨⟨by decide, by decide⟩,
   (((((C9_steps_in_order badCAWorld prodEvent).2.2.2.2 (by decide)).2 rfl).2
      ⟨some ⟨some "prod-cluster", some "https://x.eks.amazonaws.com",
        some ⟨some "not base64"⟩⟩⟩ rfl).2 _ rfl rfl).1,
   ((((((C9_steps_in_order badCAWorld prodEvent).2.2.2.2 (by decide)).2 rfl).2
      ⟨some ⟨some "prod-cluster", some "https://x.eks.amazonaws.com",
        some ⟨some "not base64"⟩⟩⟩ rfl).2 _ rfl rfl).2
      ⟨"k8s-aws-v1.prod-cluster", 900⟩ ⟨some "not base64"⟩ rfl rfl).1,
   (C9_steps_in_order badCAWorld prodEvent).1⟩

/-- C10 fails on the code: a cluster descriptor whose `CertificateAuthority` is nil makes
`newClientset` dereference a nil pointer once the token has been generated, and the
handler panics instead of returning a clientset or an error. -/
theorem C10_nil_certificate_authority_faults :
    noCACluster.CertificateAuthority = none ∧
    (newClientset stubWorld (some noCACluster) ⟨.Debug⟩).out =
      .fault "nil pointer dereference: cluster.CertificateAuthority.Data" ∧
    (LambdaHandler noCAWorld prodEvent).out =
      .fault "nil pointer dereference: cluster.CertificateAuthority.Data" ∧
    (newClientset stubWorld none ⟨.Debug⟩).out =
      .fault "nil pointer dereference: cluster.Name" := by
  refine ⟨rfl, by decide, by decide, by decide⟩

/-- Outside the nil cases, `newClientset` always returns: with a cluster descriptor that
carries a certificate authority it ends with a clientset or an error, never a panic. -/
theorem newClientset_returns (w : World) (c : Cluster) (cert : Certificate)
    (sugar : SugaredLogger) (hca : c.CertificateAuthority = some cert) :
    ∃ r, (newClientset w (some c) sugar).out = .ret r := by
  rw [newClientset_eq]
  simp only [hca]
  repeat' split
  all_goals exact ⟨_, rfl⟩

end LambdaEksAuth
